import Mathlib

/-!
Verification of the aw-tauri module supervisor (src-tauri/src/manager.rs and
src-tauri/src/lib.rs) against its natural-language specification.

The development shallowly embeds the supervisor code:

* the parallel per-module maps of ManagerState become string-keyed
  association lists (insert replaces the previous binding, as for the Rust
  HashMap and BTreeMap);
* the mutating operations started_module, stopped_module, start_module,
  stop_module, stop_modules and handle_system_click are translated one by
  one; side effects that leave the state (spawning a worker thread,
  sending SIGTERM, showing a dialog, logging a missing module) are
  reified as an Effect list returned next to the new state;
* the consumer loop handle is modelled as a step function over messages;
  the delayed restart arbiter spawned for a failing Stopped message is the
  function restart_arbiter, and the action msgStoppedFail composes
  stopped_module with that arbiter (the one-second delay itself is real
  time and not modelled; the arbiter is also exposed separately so that
  properties about the state it observes when it runs can be stated);
* the argument selection of start_module_thread and
  start_notify_module_thread, the aw-notify stdout protocol, the serde
  deserialization of UserConfig, and discover_modules are translated as
  pure functions (the filesystem for discovery becomes a finite map from
  directory path to entry list, with canonicalization the identity).
-/

/-- String-keyed association map, modelling the HashMap and BTreeMap
fields of ManagerState. Only lookup, overwrite-insert, erase and the key
list are needed. -/
abbrev SMap (β : Type) : Type := List (String × β)

/-- Map lookup, as HashMap::get / BTreeMap::get. -/
def smapFind {β : Type} (m : SMap β) (k : String) : Option β :=
  List.lookup k m

/-- Map insert that replaces any previous binding, as HashMap::insert. -/
def smapInsert {β : Type} (m : SMap β) (k : String) (v : β) : SMap β :=
  (k, v) :: m.filter (fun p => p.1 != k)

/-- Map removal, as HashMap::remove. -/
def smapErase {β : Type} (m : SMap β) (k : String) : SMap β :=
  m.filter (fun p => p.1 != k)

/-- Key list of a map, as BTreeMap::keys / HashMap::keys. -/
def smapKeys {β : Type} (m : SMap β) : List String :=
  m.map Prod.fst

/-- Observable side effects of the supervisor operations: a spawn request
handed to start_module_thread, a terminate signal (send_sigterm), the two
crash dialogs of the restart arbiter, and the error log for a module that
was not discovered. -/
inductive Effect where
  | spawn (name : String) (path : String) (args : Option (List String))
  | sigterm (pid : Nat)
  | moduleNotFound (name : String)
  | dialogRestart (name : String)
  | dialogLimit (name : String)
deriving DecidableEq, Repr

/-- The supervisor state: the per-module maps of ManagerState in
manager.rs (the channel endpoint and the modules_menu_set flag drive only
the GUI and are not part of the lifecycle maps). -/
structure ManagerState where
  modules_running : SMap Bool
  modules_discovered : SMap String
  modules_pid : SMap Nat
  modules_restart_count : SMap Nat
  modules_pending_shutdown : SMap Bool
  modules_args : SMap (Option (List String))
deriving DecidableEq, Repr

/-- ManagerState::is_module_running. -/
def is_module_running (s : ManagerState) (name : String) : Bool :=
  (smapFind s.modules_running name).getD false

/-- ManagerState::started_module (the update_tray_menu call is GUI-only). -/
def started_module (s : ManagerState) (name : String) (pid : Nat)
    (args : Option (List String)) : ManagerState :=
  { s with
    modules_running := smapInsert s.modules_running name true
    modules_pid := smapInsert s.modules_pid name pid
    modules_args := smapInsert s.modules_args name args
    modules_pending_shutdown := smapErase s.modules_pending_shutdown name }

/-- ManagerState::stopped_module. -/
def stopped_module (s : ManagerState) (name : String) : ManagerState :=
  { s with
    modules_running := smapInsert s.modules_running name false
    modules_pid := smapErase s.modules_pid name }

/-- ManagerState::start_module. It takes the state immutably: the only
outcome is an effect, either a spawn request for a discovered module that
is not running, or an error log. -/
def start_module (s : ManagerState) (name : String)
    (args : Option (List String)) : List Effect :=
  if is_module_running s name then []
  else
    match smapFind s.modules_discovered name with
    | some path => [Effect.spawn name path args]
    | none => [Effect.moduleNotFound name]

/-- ManagerState::stop_module: when a pid is recorded, mark the module as
pending shutdown and send the terminate signal. -/
def stop_module (s : ManagerState) (name : String) :
    ManagerState × List Effect :=
  match smapFind s.modules_pid name with
  | some pid =>
      ({ s with
          modules_pending_shutdown :=
            smapInsert s.modules_pending_shutdown name true },
        [Effect.sigterm pid])
  | none => (s, [])

/-- Sequential stop_module over a snapshot of names, the body of
ManagerState::stop_modules. -/
def stopList (s : ManagerState) : List String → ManagerState × List Effect
  | [] => (s, [])
  | n :: ns =>
      let r1 := stop_module s n
      let r2 := stopList r1.1 ns
      (r2.1, r1.2 ++ r2.2)

/-- ManagerState::stop_modules: snapshot the pid keys, then stop each. -/
def stop_modules (s : ManagerState) : ManagerState × List Effect :=
  stopList s (smapKeys s.modules_pid)

/-- ManagerState::handle_system_click: toggle between stop and start. -/
def handle_system_click (s : ManagerState) (name : String) :
    ManagerState × List Effect :=
  if is_module_running s name then stop_module s name
  else (s, start_module s name none)

/-- The delayed restart arbiter spawned by handle for a failing Stopped
message (manager.rs lines 306-351): read the restart count and the
pending-shutdown flag; abort if pending; below the limit, increment the
count, re-start with the stored args and show the restart dialog;
otherwise show the limit dialog. -/
def restart_arbiter (s : ManagerState) (name : String) :
    ManagerState × List Effect :=
  let restart_count := (smapFind s.modules_restart_count name).getD 0
  let pending_shutdown := (smapFind s.modules_pending_shutdown name).getD false
  if pending_shutdown then (s, [])
  else if restart_count < 3 then
    let s2 :=
      { s with
        modules_restart_count :=
          smapInsert s.modules_restart_count name (restart_count + 1) }
    let stored_args := (smapFind s2.modules_args name).getD none
    (s2, start_module s2 name stored_args ++ [Effect.dialogRestart name])
  else (s, [Effect.dialogLimit name])

/-- The actions that mutate the lifecycle state: the three lifecycle
messages consumed by handle (a Stopped message split by exit status, with
the failing case composed with the restart arbiter), plus the operations
invoked from the GUI side. -/
inductive SupAction where
  | msgStarted (name : String) (pid : Nat) (args : Option (List String))
  | msgStoppedOk (name : String)
  | msgStoppedFail (name : String)
  | msgInit
  | opStartModule (name : String) (args : Option (List String))
  | opStopModule (name : String)
  | opStopModules
  | opClick (name : String)
deriving DecidableEq, Repr

/-- One step of the supervisor: the match of handle on a message, and the
direct calls into the state for the GUI-side operations. -/
def step (s : ManagerState) (a : SupAction) : ManagerState × List Effect :=
  match a with
  | .msgStarted name pid args => (started_module s name pid args, [])
  | .msgStoppedOk name => (stopped_module s name, [])
  | .msgStoppedFail name => restart_arbiter (stopped_module s name) name
  | .msgInit => (s, [])
  | .opStartModule name args => (s, start_module s name args)
  | .opStopModule name => stop_module s name
  | .opStopModules => stop_modules s
  | .opClick name => handle_system_click s name

/-- Run a finite sequence of actions from a state. -/
def run (s : ManagerState) (acts : List SupAction) : ManagerState :=
  acts.foldl (fun s a => (step s a).1) s

/-- The state built by ManagerState::new: all maps empty except the
discovered-modules map produced by discover_modules. -/
def initState (discovered : SMap String) : ManagerState :=
  { modules_running := []
    modules_discovered := discovered
    modules_pid := []
    modules_restart_count := []
    modules_pending_shutdown := []
    modules_args := [] }

/-- Restart count of a module, with the same default 0 the arbiter uses. -/
def countOf (s : ManagerState) (name : String) : Nat :=
  (smapFind s.modules_restart_count name).getD 0

/-- Pending-shutdown flag of a module, with the default false. -/
def pendingOf (s : ManagerState) (name : String) : Bool :=
  (smapFind s.modules_pending_shutdown name).getD false

/-- Whether an effect list requests a spawn of the given module. -/
def requestsSpawn (effs : List Effect) (name : String) : Bool :=
  effs.any fun e =>
    match e with
    | Effect.spawn m _ _ => m == name
    | _ => false

/-- The pid-running invariant of the lifecycle maps: a pid is recorded for
a name exactly when the running map holds true for it. -/
def pidInv (s : ManagerState) : Prop :=
  ∀ name, (smapFind s.modules_pid name).isSome ↔
    smapFind s.modules_running name = some true

/-- Argument list a generic (non-aw-notify) child receives, from
start_module_thread: custom args verbatim when present, otherwise the
port pair only when the configured port is not 5600. -/
def genericModuleArgs (customArgs : Option (List String)) (port : Nat) :
    List String :=
  match customArgs with
  | some args => args
  | none => if port != 5600 then ["--port", toString port] else []

/-- Argument list the aw-notify child receives, from
start_notify_module_thread: the output-only flag first, then the port
pair when the port is not 5600, then any custom args. -/
def notifyModuleArgs (customArgs : Option (List String)) (port : Nat) :
    List String :=
  ["--output-only"]
    ++ (if port != 5600 then ["--port", toString port] else [])
    ++ customArgs.getD []

/-- Full argument selection of start_module_thread, including the
dispatch on the module name aw-notify. -/
def spawnArgv (name : String) (customArgs : Option (List String))
    (port : Nat) : List String :=
  if name = "aw-notify" then notifyModuleArgs customArgs port
  else genericModuleArgs customArgs port

/-- Rust str::trim over the character list of a string: drop leading and
trailing whitespace. -/
def trimmedChars (s : String) : List Char :=
  ((s.data.dropWhile Char.isWhitespace).reverse.dropWhile
      Char.isWhitespace).reverse

/-- Rust str::starts_with on character lists. -/
def startsWithChars : List Char → List Char → Bool
  | _, [] => true
  | [], _ :: _ => false
  | c :: cs, p :: ps => c == p && startsWithChars cs ps

/-- Rust str::starts_with. -/
def strStartsWith (s pat : String) : Bool :=
  startsWithChars s.data pat.data

/-- Rust str::contains for a single character pattern. -/
def strContainsChar (s : String) (c : Char) : Bool :=
  s.data.any (fun d => d == c)

/-- The delimiter line of the aw-notify stdout protocol: exactly 50 dash
characters. -/
def dashLine : String := String.mk (List.replicate 50 '-')

/-- State of the aw-notify stdout reader loop: the in-notification flag,
the accumulated block content, and the notifications dispatched so far as
title-body pairs (send_notification always titles them ActivityWatch). -/
structure NotifyState where
  in_notification : Bool
  notification_content : List String
  sent : List (String × String)
deriving DecidableEq, Repr

/-- One stdout line of the aw-notify reader loop
(start_notify_module_thread, manager.rs lines 491-520): a 50-dash line
toggles the flag, dispatching the joined non-empty buffer on close; other
lines accumulate while inside a block when their trimmed form is
non-empty. -/
def processLine (s : NotifyState) (line : String) : NotifyState :=
  if line = dashLine then
    if s.in_notification then
      if s.notification_content.isEmpty then
        { s with in_notification := false }
      else
        { in_notification := false
          notification_content := []
          sent := s.sent ++
            [("ActivityWatch",
              String.intercalate "\n" s.notification_content)] }
    else { s with in_notification := true }
  else if s.in_notification && !(trimmedChars line).isEmpty then
    { s with notification_content := s.notification_content ++ [line] }
  else s

/-- The reader loop over a whole stdout line sequence. -/
def processLines (s : NotifyState) (lines : List String) : NotifyState :=
  lines.foldl processLine s

/-- Reader state at the start of the loop. -/
def notifyInit : NotifyState :=
  { in_notification := false, notification_content := [], sent := [] }

/-- A TOML value, as far as the user configuration needs it. -/
inductive Toml where
  | str (s : String)
  | int (n : Int)
  | bool (b : Bool)
  | arr (xs : List Toml)
  | table (kvs : List (String × Toml))

/-- ModuleEntry of lib.rs: an untagged serde enum accepting a bare string
or a name-args table. -/
inductive ModuleEntry where
  | simple (name : String)
  | full (name : String) (args : String)
deriving DecidableEq, Repr

/-- AutostartConfig of lib.rs. -/
structure AutostartConfig where
  enabled : Bool
  minimized : Bool
  modules : List ModuleEntry
deriving DecidableEq, Repr

/-- UserConfig of lib.rs. -/
structure UserConfig where
  port : Nat
  discovery_paths : List String
  autostart : AutostartConfig
deriving DecidableEq, Repr

/-- Deserialize the port field: a TOML integer fitting in u16. -/
def decodePort : Toml → Except String Nat
  | Toml.int n =>
      if 0 ≤ n ∧ n < 65536 then Except.ok n.toNat
      else Except.error "invalid value for a u16"
  | _ => Except.error "invalid type for port"

/-- Deserialize discovery_paths: an array of strings. -/
def decodePathList : Toml → Except String (List String)
  | Toml.arr xs =>
      xs.foldr
        (fun x acc =>
          match x, acc with
          | Toml.str s, Except.ok ps => Except.ok (s :: ps)
          | _, Except.ok _ => Except.error "invalid type for a path"
          | _, Except.error e => Except.error e)
        (Except.ok [])
  | _ => Except.error "invalid type for discovery_paths"

/-- Deserialize one module entry, following the untagged serde enum: a
string gives the simple form; a table needs a name, while args defaults
to the empty string. -/
def decodeModuleEntry : Toml → Except String ModuleEntry
  | Toml.str s => Except.ok (ModuleEntry.simple s)
  | Toml.table kvs =>
      match List.lookup "name" kvs with
      | some (Toml.str n) =>
          match List.lookup "args" kvs with
          | some (Toml.str a) => Except.ok (ModuleEntry.full n a)
          | some _ => Except.error "invalid type for args"
          | none => Except.ok (ModuleEntry.full n "")
      | _ => Except.error "data did not match any variant of ModuleEntry"
  | _ => Except.error "data did not match any variant of ModuleEntry"

/-- Deserialize the modules array. -/
def decodeModules : Toml → Except String (List ModuleEntry)
  | Toml.arr xs =>
      xs.foldr
        (fun x acc =>
          match decodeModuleEntry x, acc with
          | Except.ok m, Except.ok ms => Except.ok (m :: ms)
          | Except.error e, _ => Except.error e
          | _, Except.error e => Except.error e)
        (Except.ok [])
  | _ => Except.error "invalid type for modules"

/-- Look up a required struct field; a missing field is an error, exactly
as for the derived serde deserializer of a struct without field
defaults. -/
def requireField {α : Type} (kvs : List (String × Toml)) (k : String)
    (dec : Toml → Except String α) : Except String α :=
  match List.lookup k kvs with
  | some v => dec v
  | none => Except.error ("missing field " ++ k)

/-- Deserialize a boolean field. -/
def decodeBool : Toml → Except String Bool
  | Toml.bool b => Except.ok b
  | _ => Except.error "invalid type for a bool"

/-- Derived deserializer of AutostartConfig: enabled, minimized and
modules are all required. -/
def decodeAutostart : Toml → Except String AutostartConfig
  | Toml.table kvs =>
      match requireField kvs "enabled" decodeBool with
      | Except.error e => Except.error e
      | Except.ok enabled =>
          match requireField kvs "minimized" decodeBool with
          | Except.error e => Except.error e
          | Except.ok minimized =>
              match requireField kvs "modules" decodeModules with
              | Except.error e => Except.error e
              | Except.ok modules =>
                  Except.ok ⟨enabled, minimized, modules⟩
  | _ => Except.error "invalid type for autostart"

/-- Derived deserializer of UserConfig (lib.rs lines 280-285): the
declaration carries no serde field defaults, so port, discovery_paths and
autostart are all required. -/
def deserializeUserConfig : Toml → Except String UserConfig
  | Toml.table kvs =>
      match requireField kvs "port" decodePort with
      | Except.error e => Except.error e
      | Except.ok port =>
          match requireField kvs "discovery_paths" decodePathList with
          | Except.error e => Except.error e
          | Except.ok dps =>
              match requireField kvs "autostart" decodeAutostart with
              | Except.error e => Except.error e
              | Except.ok auto => Except.ok ⟨port, dps, auto⟩
  | _ => Except.error "invalid type for UserConfig"

/-- The default module list of UserConfig (lib.rs lines 292-318),
parameterized by the platform facts read from the environment. -/
def defaultModules (isLinux isWayland : Bool) : List ModuleEntry :=
  (if isLinux && isWayland then [ModuleEntry.simple "aw-awatcher"]
   else
     [ModuleEntry.simple "aw-watcher-afk",
      ModuleEntry.simple "aw-watcher-window"])
    ++ [ModuleEntry.full "aw-sync" "daemon"]

/-- Default UserConfig (lib.rs lines 287-330). -/
def defaultUserConfig (discoveryPaths : List String)
    (isLinux isWayland : Bool) : UserConfig :=
  { port := 5600
    discovery_paths := discoveryPaths
    autostart :=
      { enabled := true
        minimized := true
        modules := defaultModules isLinux isWayland } }

/-- The parse branch of get_config (lib.rs lines 348-361): an existing
config file that parses is used as is; a parse failure warns the user and
falls back to the defaults without overwriting the file. -/
def loadConfig (t : Toml) (defaults : UserConfig) : UserConfig :=
  match deserializeUserConfig t with
  | Except.ok c => c
  | Except.error _ => defaults

/-- A directory entry as discover_modules sees it through fs::metadata:
name, kind flags and the permission mode bits. -/
structure FsEntry where
  fname : String
  isDir : Bool
  isFile : Bool
  isSymlink : Bool
  mode : Nat
deriving DecidableEq, Repr

/-- A filesystem for discovery: the readable directories with their
entries (a read_dir failure is a missing key). -/
abbrev Fs := List (String × List FsEntry)

/-- The exclusion list of the Unix discover_modules. -/
def excludedModules : List String :=
  ["aw-tauri", "aw-client", "aw-cli", "aw-qt", "aw-server",
   "aw-server-rust", "aw-watcher-window-macos"]

/-- Path of a directory entry. -/
def childPath (dir fname : String) : String := dir ++ "/" ++ fname

/-- The merged search list of discover_modules (manager.rs lines
574-585): each configured discovery path that is not already present is
inserted at the front of the PATH entries, in configuration order. -/
def mergedPaths (envPaths discoveryPaths : List String) : List String :=
  discoveryPaths.foldl
    (fun ps d => if ps.contains d then ps else d :: ps) envPaths

/-- Scan the entries of one directory (manager.rs lines 601-636): only
names starting with aw- are considered; aw- directories are pushed for
the depth-first walk, and executable extension-free non-excluded files
are inserted into the found map, replacing any earlier binding. Returns
the subdirectories to push, in entry order, next to the updated map. -/
def scanDir (dir : String) (entries : List FsEntry) (found : SMap String) :
    List String × SMap String :=
  entries.foldl
    (fun acc e =>
      if !(strStartsWith e.fname "aw-") then acc
      else if e.isDir then (acc.1 ++ [childPath dir e.fname], acc.2)
      else if e.isFile || e.isSymlink then
        if strContainsChar e.fname '.' ||
            excludedModules.contains e.fname then acc
        else if (e.mode &&& 0o111) != 0 then
          (acc.1, smapInsert acc.2 e.fname (childPath dir e.fname))
        else acc
      else acc)
    ([], found)

/-- The depth-first worklist loop of discover_modules. The Rust Vec pops
from its back, so the head of the stack list here is the top of the Vec;
subdirectories pushed while scanning land above earlier ones in entry
order. Visited directories are skipped (canonicalization is the identity
in this model, which has no symlinked directories). The fuel argument
only bounds the recursion; the wrapper below always passes enough. -/
def discoverLoop (fs : Fs) :
    Nat → List String → List String → SMap String → SMap String
  | 0, _, _, found => found
  | _ + 1, [], _, found => found
  | fuel + 1, dir :: stack, visited, found =>
      if visited.contains dir then discoverLoop fs fuel stack visited found
      else
        match List.lookup dir fs with
        | none => discoverLoop fs fuel stack (dir :: visited) found
        | some entries =>
            let res := scanDir dir entries found
            discoverLoop fs fuel (res.1.reverse ++ stack)
              (dir :: visited) res.2

/-- Total number of directory entries in the filesystem. -/
def totalEntryCount (fs : Fs) : Nat :=
  (fs.map (fun p => p.2.length)).sum

/-- discover_modules for Unix (manager.rs lines 562-644) over the
filesystem model: build the merged search list, then run the depth-first
walk with a fuel bound that always suffices (each loop iteration pops one
directory, and pushes happen at most once per entry of the readable
filesystem). -/
def discover_modules (fs : Fs) (envPaths discoveryPaths : List String) :
    SMap String :=
  let stack := (mergedPaths envPaths discoveryPaths).reverse
  discoverLoop fs (stack.length + totalEntryCount fs + fs.length + 1)
    stack [] []

/-- An executable, extension-free regular file entry. -/
def exeEntry (n : String) : FsEntry :=
  { fname := n, isDir := false, isFile := true, isSymlink := false
    mode := 0o755 }

/-- A concrete state with the pending-shutdown flag set for module m. -/
def pendingStateC2 : ManagerState :=
  { modules_running := [("m", false)]
    modules_discovered := [("m", "/usr/bin/m")]
    modules_pid := []
    modules_restart_count := []
    modules_pending_shutdown := [("m", true)]
    modules_args := [] }

/-- The state after aw-sync was spawned with the custom argument daemon:
running with pid 42 and stored args daemon. -/
def syncStartedState : ManagerState :=
  run (initState [("aw-sync", "/usr/bin/aw-sync")])
    [SupAction.msgStarted "aw-sync" 42 (some ["daemon"])]

/-- Lookup is unchanged by filtering out a different key. -/
theorem lookup_filter_ne {β : Type} (m : SMap β) (k q : String) (h : q ≠ k) :
    List.lookup q (m.filter fun p => p.1 != k) = List.lookup q m := by
  induction m with
  | nil => rfl
  | cons a t ih =>
      obtain ⟨a1, a2⟩ := a
      by_cases hak : a1 = k
      · subst hak
        simpa [List.lookup, bne_self_eq_false,
          beq_eq_false_iff_ne.mpr h] using ih
      · by_cases hqa : q = a1
        · subst hqa
          simp [List.lookup, bne_iff_ne.mpr hak]
        · simpa [List.lookup, bne_iff_ne.mpr hak,
            beq_eq_false_iff_ne.mpr hqa] using ih

/-- Lookup of the filtered-out key fails. -/
theorem lookup_filter_self {β : Type} (m : SMap β) (k : String) :
    List.lookup k (m.filter fun p => p.1 != k) = none := by
  induction m with
  | nil => rfl
  | cons a t ih =>
      obtain ⟨a1, a2⟩ := a
      by_cases hak : a1 = k
      · subst hak
        simpa [bne_self_eq_false] using ih
      · simpa [List.lookup, bne_iff_ne.mpr hak,
          beq_eq_false_iff_ne.mpr (Ne.symm hak)] using ih

/-- Lookup after an overwriting insert. -/
theorem smapFind_insert {β : Type} (m : SMap β) (k q : String) (v : β) :
    smapFind (smapInsert m k v) q = if q = k then some v else smapFind m q := by
  by_cases h : q = k
  · subst h; simp [smapFind, smapInsert, List.lookup]
  · simp [smapFind, smapInsert, List.lookup, beq_eq_false_iff_ne.mpr h, h,
      lookup_filter_ne m k q h]

/-- Lookup after an erase. -/
theorem smapFind_erase {β : Type} (m : SMap β) (k q : String) :
    smapFind (smapErase m k) q = if q = k then none else smapFind m q := by
  by_cases h : q = k
  · subst h; simp [smapFind, smapErase, lookup_filter_self]
  · simp [smapFind, smapErase, h, lookup_filter_ne m k q h]

/-- stop_module changes no field but the pending-shutdown map. -/
theorem stop_module_fields (s : ManagerState) (name : String) :
    (stop_module s name).1.modules_running = s.modules_running
    ∧ (stop_module s name).1.modules_pid = s.modules_pid
    ∧ (stop_module s name).1.modules_restart_count = s.modules_restart_count
    ∧ (stop_module s name).1.modules_args = s.modules_args
    ∧ (stop_module s name).1.modules_discovered = s.modules_discovered := by
  cases h : smapFind s.modules_pid name <;> simp [stop_module, h]

/-- stopList changes no field but the pending-shutdown map. -/
theorem stopList_fields (ns : List String) :
    ∀ s : ManagerState,
      (stopList s ns).1.modules_running = s.modules_running
      ∧ (stopList s ns).1.modules_pid = s.modules_pid
      ∧ (stopList s ns).1.modules_restart_count = s.modules_restart_count
      ∧ (stopList s ns).1.modules_args = s.modules_args
      ∧ (stopList s ns).1.modules_discovered = s.modules_discovered := by
  induction ns with
  | nil => intro s; simp [stopList]
  | cons n t ih =>
      intro s
      have h1 := stop_module_fields s n
      have h2 := ih (stop_module s n).1
      simp only [stopList]
      exact ⟨h2.1.trans h1.1, h2.2.1.trans h1.2.1,
        h2.2.2.1.trans h1.2.2.1, h2.2.2.2.1.trans h1.2.2.2.1,
        h2.2.2.2.2.trans h1.2.2.2.2⟩

/-- The restart arbiter changes no field but the restart-count map. -/
theorem restart_arbiter_fields (s : ManagerState) (name : String) :
    (restart_arbiter s name).1.modules_running = s.modules_running
    ∧ (restart_arbiter s name).1.modules_pid = s.modules_pid
    ∧ (restart_arbiter s name).1.modules_pending_shutdown
        = s.modules_pending_shutdown
    ∧ (restart_arbiter s name).1.modules_args = s.modules_args
    ∧ (restart_arbiter s name).1.modules_discovered = s.modules_discovered := by
  by_cases hp : (smapFind s.modules_pending_shutdown name).getD false
  · simp [restart_arbiter, hp]
  · by_cases hc : (smapFind s.modules_restart_count name).getD 0 < 3
    · simp [restart_arbiter, hp, hc]
    · simp [restart_arbiter, hp, hc]

/-- The pid-running invariant is preserved when the pid and running maps
are carried over unchanged. -/
theorem pidInv_of_fields {s t : ManagerState}
    (hpid : t.modules_pid = s.modules_pid)
    (hrun : t.modules_running = s.modules_running)
    (h : pidInv s) : pidInv t := by
  intro q
  rw [hpid, hrun]
  exact h q

/-- started_module preserves the pid-running invariant. -/
theorem pidInv_started (s : ManagerState) (n : String) (p : Nat)
    (a : Option (List String)) (h : pidInv s) :
    pidInv (started_module s n p a) := by
  intro q
  by_cases hq : q = n
  · subst hq
    simp [started_module, smapFind_insert]
  · simpa [started_module, smapFind_insert, hq] using h q

/-- stopped_module preserves the pid-running invariant. -/
theorem pidInv_stopped (s : ManagerState) (n : String) (h : pidInv s) :
    pidInv (stopped_module s n) := by
  intro q
  by_cases hq : q = n
  · subst hq
    simp [stopped_module, smapFind_insert, smapFind_erase]
  · simpa [stopped_module, smapFind_insert, smapFind_erase, hq] using h q

/-- Every supervisor step preserves the pid-running invariant. -/
theorem pidInv_step (s : ManagerState) (a : SupAction) (h : pidInv s) :
    pidInv (step s a).1 := by
  cases a with
  | msgStarted n p args => exact pidInv_started s n p args h
  | msgStoppedOk n => exact pidInv_stopped s n h
  | msgStoppedFail n =>
      have h2 := pidInv_stopped s n h
      have hf := restart_arbiter_fields (stopped_module s n) n
      exact pidInv_of_fields hf.2.1 hf.1 h2
  | msgInit => exact h
  | opStartModule n args => exact h
  | opStopModule n =>
      have hf := stop_module_fields s n
      exact pidInv_of_fields hf.2.1 hf.1 h
  | opStopModules =>
      have hf := stopList_fields (smapKeys s.modules_pid) s
      exact pidInv_of_fields hf.2.1 hf.1 h
  | opClick n =>
      by_cases hr : is_module_running s n
      · have hf := stop_module_fields s n
        simpa [step, handle_system_click, hr] using
          pidInv_of_fields hf.2.1 hf.1 h
      · simpa [step, handle_system_click, hr] using h

/-- Every reachable state satisfies the pid-running invariant. -/
theorem pidInv_run (discovered : SMap String) (acts : List SupAction) :
    pidInv (run (initState discovered) acts) := by
  suffices hgen : ∀ s : ManagerState, pidInv s → pidInv (run s acts) from
    hgen (initState discovered) (by intro q; simp [initState, smapFind])
  induction acts with
  | nil => intro s h; exact h
  | cons a t ih =>
      intro s h
      exact ih (step s a).1 (pidInv_step s a h)

/-- The restart arbiter keeps every restart count at most 3: it only ever
increments a count that is strictly below 3. -/
theorem restart_arbiter_count_le (s : ManagerState) (n q : String)
    (h : countOf s q ≤ 3) : countOf (restart_arbiter s n).1 q ≤ 3 := by
  by_cases hp : (smapFind s.modules_pending_shutdown n).getD false
  · simpa [restart_arbiter, hp] using h
  · by_cases hc : (smapFind s.modules_restart_count n).getD 0 < 3
    · by_cases hq : q = n
      · subst hq
        have hgoal : countOf (restart_arbiter s q).1 q
            = (smapFind s.modules_restart_count q).getD 0 + 1 := by
          simp [restart_arbiter, hp, hc, countOf, smapFind_insert]
        rw [hgoal]
        omega
      · simpa [restart_arbiter, hp, hc, countOf, smapFind_insert, hq] using h
    · simpa [restart_arbiter, hp, hc] using h

/-- Every supervisor step keeps every restart count at most 3. -/
theorem step_count_le (s : ManagerState) (a : SupAction) (q : String)
    (h : countOf s q ≤ 3) : countOf (step s a).1 q ≤ 3 := by
  cases a with
  | msgStarted n p args => simpa [step, countOf, started_module] using h
  | msgStoppedOk n => simpa [step, countOf, stopped_module] using h
  | msgStoppedFail n =>
      have h2 : countOf (stopped_module s n) q ≤ 3 := by
        simpa [countOf, stopped_module] using h
      exact restart_arbiter_count_le (stopped_module s n) n q h2
  | msgInit => exact h
  | opStartModule n args => exact h
  | opStopModule n =>
      have hf := stop_module_fields s n
      simpa [step, countOf, hf.2.2.1] using h
  | opStopModules =>
      have hf := stopList_fields (smapKeys s.modules_pid) s
      simpa [step, stop_modules, countOf, hf.2.2.1] using h
  | opClick n =>
      by_cases hr : is_module_running s n
      · have hf := stop_module_fields s n
        simpa [step, handle_system_click, hr, countOf, hf.2.2.1] using h
      · simpa [step, handle_system_click, hr] using h

/-- Every reachable state keeps every restart count at most 3. -/
theorem run_count_le (discovered : SMap String) (acts : List SupAction)
    (q : String) : countOf (run (initState discovered) acts) q ≤ 3 := by
  suffices hgen : ∀ s : ManagerState, countOf s q ≤ 3 →
      countOf (run s acts) q ≤ 3 from
    hgen (initState discovered) (by simp [initState, countOf, smapFind])
  induction acts with
  | nil => intro s h; exact h
  | cons a t ih =>
      intro s h
      exact ih (step s a).1 (step_count_le s a q h)

/-- Consuming a failing Stopped message while the restart count already
equals 3 requests no spawn: the arbiter either aborts on the pending
flag or takes the limit branch. -/
theorem no_spawn_at_limit (s : ManagerState) (name : String)
    (h : countOf s name = 3) :
    requestsSpawn (step s (SupAction.msgStoppedFail name)).2 name = false := by
  have hc : (smapFind (stopped_module s name).modules_restart_count
      name).getD 0 = 3 := by
    simpa [countOf, stopped_module] using h
  by_cases hp : (smapFind
      (stopped_module s name).modules_pending_shutdown name).getD false
  · simp [step, restart_arbiter, hp, requestsSpawn]
  · simp [step, restart_arbiter, hp, hc, requestsSpawn]

/-- C1: for every module name and every finite action sequence consumed
by the supervisor from the initial state, the restart count of the module
never exceeds 3; and when a failing Stopped message for the module is
consumed while its restart count already equals 3 (the 4th failing
exit), the restart arbiter requests no new spawn of that module. -/
theorem restart_count_never_exceeds_three (discovered : SMap String)
    (acts : List SupAction) (name : String) :
    countOf (run (initState discovered) acts) name ≤ 3
    ∧ (countOf (run (initState discovered) acts) name = 3 →
        requestsSpawn
          (step (run (initState discovered) acts)
            (SupAction.msgStoppedFail name)).2 name = false) :=
  ⟨run_count_le discovered acts name,
   fun h => no_spawn_at_limit (run (initState discovered) acts) name h⟩

/-- Witness for C1: three failing exits of an undiscovered module raise
its count to exactly 3, and the 4th failing exit spawns nothing. -/
theorem restart_count_never_exceeds_three_witness :
    countOf (run (initState [])
      [SupAction.msgStoppedFail "m", SupAction.msgStoppedFail "m",
       SupAction.msgStoppedFail "m"]) "m" ≤ 3
    ∧ requestsSpawn
        (step (run (initState [])
          [SupAction.msgStoppedFail "m", SupAction.msgStoppedFail "m",
           SupAction.msgStoppedFail "m"]) (SupAction.msgStoppedFail "m")).2
        "m" = false :=
  ⟨(restart_count_never_exceeds_three []
      [SupAction.msgStoppedFail "m", SupAction.msgStoppedFail "m",
       SupAction.msgStoppedFail "m"] "m").1,
   (restart_count_never_exceeds_three []
      [SupAction.msgStoppedFail "m", SupAction.msgStoppedFail "m",
       SupAction.msgStoppedFail "m"] "m").2 (by decide)⟩

/-- C2: when the pending-shutdown flag of a module is set at the time a
failing Stopped message for it is consumed (the flag is untouched by
stopped_module, so this is also its value at the moment the delayed
restart arbiter runs), the whole restart-count map is left unchanged and
no effect at all, in particular no spawn, is requested. -/
theorem pending_shutdown_blocks_restart (s : ManagerState) (name : String)
    (h : pendingOf s name = true) :
    (step s (SupAction.msgStoppedFail name)).1.modules_restart_count
        = s.modules_restart_count
    ∧ (step s (SupAction.msgStoppedFail name)).2 = [] := by
  have hp : (smapFind s.modules_pending_shutdown name).getD false = true := h
  constructor
  · simp [step, restart_arbiter, stopped_module, hp]
  · simp [step, restart_arbiter, stopped_module, hp]

/-- Witness for C2 at a concrete pending state. -/
theorem pending_shutdown_blocks_restart_witness :
    (step pendingStateC2
        (SupAction.msgStoppedFail "m")).1.modules_restart_count
      = pendingStateC2.modules_restart_count
    ∧ (step pendingStateC2 (SupAction.msgStoppedFail "m")).2 = [] :=
  pending_shutdown_blocks_restart pendingStateC2 "m" (by decide)

/-- C3: in every state reachable from the initial empty state by the
mutating operations (the lifecycle message handlers started_module and
stopped_module, the failing-exit arbiter, start_module, stop_module,
stop_modules and handle_system_click), a pid entry exists for a module
name exactly when the running map holds true for it. -/
theorem pid_present_iff_running (discovered : SMap String)
    (acts : List SupAction) (name : String) :
    (smapFind (run (initState discovered) acts).modules_pid name).isSome
    ↔ smapFind (run (initState discovered) acts).modules_running name
        = some true :=
  pidInv_run discovered acts name

/-- C4: on every reachable state of the lifecycle maps, start_module on a
module whose running flag is true leaves the state unchanged and emits no
effect, and stop_module on a module whose running flag is false leaves
the state unchanged and emits no effect (the stop half rests on the
pid-running invariant, which holds in every reachable state: stop_module
itself tests the pid map). -/
theorem start_stop_idempotent (discovered : SMap String)
    (acts : List SupAction) (name : String) (args : Option (List String)) :
    (is_module_running (run (initState discovered) acts) name = true →
      step (run (initState discovered) acts)
          (SupAction.opStartModule name args)
        = (run (initState discovered) acts, []))
    ∧ (is_module_running (run (initState discovered) acts) name = false →
      step (run (initState discovered) acts) (SupAction.opStopModule name)
        = (run (initState discovered) acts, [])) := by
  constructor
  · intro h
    simp [step, start_module, h]
  · intro h
    have hpid : smapFind (run (initState discovered) acts).modules_pid name
        = none := by
      cases hval : smapFind (run (initState discovered) acts).modules_pid name
        with
      | none => rfl
      | some p =>
          have hsome : (smapFind
              (run (initState discovered) acts).modules_pid name).isSome := by
            rw [hval]; rfl
          have hrun := (pidInv_run discovered acts name).mp hsome
          simp [is_module_running, hrun] at h
    simp [step, stop_module, hpid]

/-- Witness for C4: starting the running module m is a no-op, and
stopping it in the initial state, where it is not running, is a no-op. -/
theorem start_stop_idempotent_witness :
    step (run (initState [("m", "/usr/bin/m")])
        [SupAction.msgStarted "m" 5 none])
        (SupAction.opStartModule "m" none)
      = (run (initState [("m", "/usr/bin/m")])
          [SupAction.msgStarted "m" 5 none], [])
    ∧ step (run (initState [("m", "/usr/bin/m")]) [])
        (SupAction.opStopModule "m")
      = (run (initState [("m", "/usr/bin/m")]) [], []) :=
  ⟨(start_stop_idempotent [("m", "/usr/bin/m")]
      [SupAction.msgStarted "m" 5 none] "m" none).1 (by decide),
   (start_stop_idempotent [("m", "/usr/bin/m")] [] "m" none).2 (by decide)⟩

/-- C5: for a generic (non-aw-notify) module spawn, custom args are
passed verbatim with nothing added; without custom args the child
receives exactly the two arguments --port and the port when the
configured port differs from 5600, and no arguments at all when the port
equals 5600. -/
theorem generic_module_args_selection (name : String) (port : Nat)
    (h : name ≠ "aw-notify") :
    (∀ args : List String, spawnArgv name (some args) port = args)
    ∧ (port ≠ 5600 → spawnArgv name none port = ["--port", toString port])
    ∧ (port = 5600 → spawnArgv name none port = []) := by
  refine ⟨fun args => by simp [spawnArgv, h, genericModuleArgs], ?_, ?_⟩
  · intro hp
    simp [spawnArgv, h, genericModuleArgs, bne_iff_ne.mpr hp]
  · intro hp
    subst hp
    simp [spawnArgv, h, genericModuleArgs]

/-- Witness for C5 at the module aw-watcher-afk with ports 5601 and
5600. -/
theorem generic_module_args_selection_witness :
    spawnArgv "aw-watcher-afk" (some ["daemon"]) 5601 = ["daemon"]
    ∧ spawnArgv "aw-watcher-afk" none 5601 = ["--port", toString 5601]
    ∧ spawnArgv "aw-watcher-afk" none 5600 = [] :=
  ⟨(generic_module_args_selection "aw-watcher-afk" 5601
      (by decide)).1 ["daemon"],
   (generic_module_args_selection "aw-watcher-afk" 5601
      (by decide)).2.1 (by decide),
   (generic_module_args_selection "aw-watcher-afk" 5600
      (by decide)).2.2 rfl⟩

/-- C6: only a line of exactly 50 dashes toggles the in-notification
flag; a 50-dash line always toggles it; a line of 49 or 51 dashes inside
a block is accumulated as ordinary content; and the stream consisting of
a 50-dash line, Hello, World and a 50-dash line dispatches exactly one
notification titled ActivityWatch with body Hello-newline-World. -/
theorem notify_fifty_dash_framing :
    (∀ (s : NotifyState) (line : String), line ≠ dashLine →
        (processLine s line).in_notification = s.in_notification)
    ∧ (∀ s : NotifyState,
        (processLine s dashLine).in_notification = !s.in_notification)
    ∧ (∀ s : NotifyState, s.in_notification = true →
        (processLine s
            (String.mk (List.replicate 49 '-'))).notification_content
          = s.notification_content ++ [String.mk (List.replicate 49 '-')]
        ∧ (processLine s
            (String.mk (List.replicate 51 '-'))).notification_content
          = s.notification_content ++ [String.mk (List.replicate 51 '-')])
    ∧ processLines notifyInit [dashLine, "Hello", "World", dashLine]
        = { in_notification := false, notification_content := []
            sent := [("ActivityWatch", "Hello\nWorld")] } := by
  refine ⟨?_, ?_, ?_, by decide⟩
  · intro s line hne
    unfold processLine
    rw [if_neg hne]
    by_cases hc : (s.in_notification && !(trimmedChars line).isEmpty) = true
    · simp [hc]
    · simp [hc]
  · intro s
    by_cases hin : s.in_notification
    · by_cases hempty : s.notification_content.isEmpty
      · simp [processLine, hin, hempty]
      · simp [processLine, hin, hempty]
    · simp [processLine, hin]
  · intro s hin
    constructor
    · have h49 : String.mk (List.replicate 49 '-') ≠ dashLine := by decide
      unfold processLine
      rw [if_neg h49]
      simp [hin]
      split
      next hc => exact absurd hc (by decide)
      next => rfl
    · have h51 : String.mk (List.replicate 51 '-') ≠ dashLine := by decide
      unfold processLine
      rw [if_neg h51]
      simp [hin]
      split
      next hc => exact absurd hc (by decide)
      next => rfl

/-- Witness for C6: an ordinary line leaves the flag alone, and a 49-dash
line inside a block is accumulated as content. -/
theorem notify_fifty_dash_framing_witness :
    (processLine notifyInit "Hello").in_notification
        = notifyInit.in_notification
    ∧ (processLine
        { in_notification := true, notification_content := [], sent := [] }
        (String.mk (List.replicate 49 '-'))).notification_content
      = ([] : List String) ++ [String.mk (List.replicate 49 '-')] :=
  ⟨notify_fifty_dash_framing.1 notifyInit "Hello" (by decide),
   (notify_fifty_dash_framing.2.2.1
      { in_notification := true, notification_content := [], sent := [] }
      rfl).1⟩

/-- A line whose trimmed form is empty never changes the reader state:
it is not the delimiter, and the accumulation guard drops it. -/
theorem ws_line_noop (s : NotifyState) (l : String)
    (h : (trimmedChars l).isEmpty = true) : processLine s l = s := by
  have hne : l ≠ dashLine := by
    intro e
    subst e
    exact absurd h (by decide)
  unfold processLine
  rw [if_neg hne]
  simp [h]

/-- Folding the reader over lines with empty trimmed forms is the
identity. -/
theorem foldl_ws_noop (ws : List String)
    (h : ∀ l ∈ ws, (trimmedChars l).isEmpty = true) (s : NotifyState) :
    List.foldl processLine s ws = s := by
  induction ws with
  | nil => rfl
  | cons a t ih =>
      simp only [List.foldl]
      rw [ws_line_noop s a (h a (by simp))]
      exact ih (fun l hl => h l (by simp [hl]))

/-- C10: a delimited block whose interior lines all trim to empty
dispatches no notification and returns the reader to its pre-block
state; and any line whose trimmed form is empty is dropped exactly like
an empty line, leaving the state unchanged. -/
theorem empty_block_dispatches_nothing (sent0 : List (String × String))
    (ws : List String) (h : ∀ l ∈ ws, (trimmedChars l).isEmpty = true) :
    processLines ⟨false, [], sent0⟩ (dashLine :: (ws ++ [dashLine]))
        = ⟨false, [], sent0⟩
    ∧ (∀ (s : NotifyState) (l : String), (trimmedChars l).isEmpty = true →
        processLine s l = s) := by
  constructor
  · have h1 : processLine ⟨false, [], sent0⟩ dashLine
        = ⟨true, [], sent0⟩ := by
      simp [processLine]
    show List.foldl processLine ⟨false, [], sent0⟩
        (dashLine :: (ws ++ [dashLine])) = ⟨false, [], sent0⟩
    rw [List.foldl_cons, h1, List.foldl_append, foldl_ws_noop ws h]
    simp [List.foldl, processLine]
  · exact fun s l hl => ws_line_noop s l hl

/-- Witness for C10: a block holding a two-space line and an empty line
dispatches nothing. -/
theorem empty_block_dispatches_nothing_witness :
    processLines ⟨false, [], [("t", "b")]⟩
        (dashLine :: (["  ", ""] ++ [dashLine])) = ⟨false, [], [("t", "b")]⟩ :=
  (empty_block_dispatches_nothing [("t", "b")] ["  ", ""] (by decide)).1

/-- Counterexample for C7: aw-sync is spawned with the custom argument
daemon (recorded in modules_args), stopped via a tray click, and its
failing Stopped is consumed; the subsequent tray click requests a spawn
with no custom arguments, not with the stored daemon argument. -/
theorem tray_restart_args_counterexample :
    smapFind (run (initState [("aw-sync", "/usr/bin/aw-sync")])
        [SupAction.msgStarted "aw-sync" 42 (some ["daemon"]),
         SupAction.opClick "aw-sync",
         SupAction.msgStoppedFail "aw-sync"]).modules_args "aw-sync"
      = some (some ["daemon"])
    ∧ (step (run (initState [("aw-sync", "/usr/bin/aw-sync")])
        [SupAction.msgStarted "aw-sync" 42 (some ["daemon"]),
         SupAction.opClick "aw-sync",
         SupAction.msgStoppedFail "aw-sync"])
        (SupAction.opClick "aw-sync")).2
      = [Effect.spawn "aw-sync" "/usr/bin/aw-sync" none]
    ∧ Effect.spawn "aw-sync" "/usr/bin/aw-sync" none
        ≠ Effect.spawn "aw-sync" "/usr/bin/aw-sync" (some ["daemon"]) :=
  ⟨by decide, by decide, by decide⟩

/-- C7 amended: after a user stops a running module via a tray click
(pending_shutdown set, terminate signal sent to the recorded pid) and the
failing Stopped message is then consumed without a restart and with the
restart-count map unchanged, a subsequent tray click on the now stopped
module requests a spawn with no custom arguments (handle_system_click
passes None), so the child gets the default argument selection rather
than the arguments of its most recent spawn. -/
theorem tray_restart_uses_default_args (s : ManagerState) (name : String)
    (pid : Nat) (path : String)
    (hrun : is_module_running s name = true)
    (hpid : smapFind s.modules_pid name = some pid)
    (hpath : smapFind s.modules_discovered name = some path) :
    (step s (SupAction.opClick name)).2 = [Effect.sigterm pid]
    ∧ pendingOf (step s (SupAction.opClick name)).1 name = true
    ∧ (step (step s (SupAction.opClick name)).1
        (SupAction.msgStoppedFail name)).1.modules_restart_count
      = s.modules_restart_count
    ∧ (step (step s (SupAction.opClick name)).1
        (SupAction.msgStoppedFail name)).2 = []
    ∧ (step (step (step s (SupAction.opClick name)).1
          (SupAction.msgStoppedFail name)).1 (SupAction.opClick name)).2
      = [Effect.spawn name path none] := by
  have h1 : step s (SupAction.opClick name)
      = ({ s with modules_pending_shutdown := smapInsert s.modules_pending_shutdown name true },
         [Effect.sigterm pid]) := by
    simp [step, handle_system_click, hrun, stop_module, hpid]
  have hs1 : (step s (SupAction.opClick name)).1
      = { s with modules_pending_shutdown := smapInsert s.modules_pending_shutdown name true } := by
    rw [h1]
  have hpend1 : (smapFind
      (step s (SupAction.opClick name)).1.modules_pending_shutdown
      name).getD false = true := by
    rw [hs1]
    simp [smapFind_insert]
  have h2s : step (step s (SupAction.opClick name)).1
      (SupAction.msgStoppedFail name)
      = (stopped_module (step s (SupAction.opClick name)).1 name, []) := by
    rw [hs1]
    simp [step, restart_arbiter, stopped_module, smapFind_insert]
  have hrun2 : is_module_running (stopped_module
      (step s (SupAction.opClick name)).1 name) name = false := by
    simp [is_module_running, stopped_module, smapFind_insert]
  have hpath2 : smapFind (stopped_module
      (step s (SupAction.opClick name)).1 name).modules_discovered name
      = some path := by
    rw [hs1]
    simpa [stopped_module] using hpath
  have h3 : ∀ t : ManagerState, is_module_running t name = false →
      smapFind t.modules_discovered name = some path →
      (step t (SupAction.opClick name)).2 = [Effect.spawn name path none] := by
    intro t ht hd
    simp [step, handle_system_click, ht, start_module, hd]
  refine ⟨by rw [h1], ?_, ?_, ?_, ?_⟩
  · simpa [pendingOf] using hpend1
  · rw [h2s]
    show (stopped_module (step s (SupAction.opClick name)).1
        name).modules_restart_count = s.modules_restart_count
    rw [hs1]
    rfl
  · rw [h2s]
  · rw [h2s]
    exact h3 (stopped_module (step s (SupAction.opClick name)).1 name)
      hrun2 hpath2

/-- Witness for the amended C7 at the concrete started aw-sync state. -/
theorem tray_restart_uses_default_args_witness :
    (step syncStartedState (SupAction.opClick "aw-sync")).2
        = [Effect.sigterm 42]
    ∧ pendingOf (step syncStartedState (SupAction.opClick "aw-sync")).1
        "aw-sync" = true
    ∧ (step (step syncStartedState (SupAction.opClick "aw-sync")).1
        (SupAction.msgStoppedFail "aw-sync")).1.modules_restart_count
      = syncStartedState.modules_restart_count
    ∧ (step (step syncStartedState (SupAction.opClick "aw-sync")).1
        (SupAction.msgStoppedFail "aw-sync")).2 = []
    ∧ (step (step (step syncStartedState (SupAction.opClick "aw-sync")).1
          (SupAction.msgStoppedFail "aw-sync")).1
          (SupAction.opClick "aw-sync")).2
      = [Effect.spawn "aw-sync" "/usr/bin/aw-sync" none] :=
  tray_restart_uses_default_args syncStartedState "aw-sync" 42
    "/usr/bin/aw-sync" (by decide) (by decide) (by decide)

/-- Counterexample for C8: a valid TOML table holding port and
discovery_paths but no autostart table fails to deserialize into
UserConfig, because the derived deserializer has no field defaults. -/
theorem missing_autostart_counterexample :
    (deserializeUserConfig (Toml.table
      [("port", Toml.int 5600), ("discovery_paths", Toml.arr [])])).isOk
      = false := by decide

/-- C8 amended: parsing a config table without an autostart key fails
(for a well-formed port and discovery_paths, with a missing-field error);
get_config then recovers by using the complete default configuration,
discarding the port and discovery_paths of the file, after warning the
user about the malformed config. -/
theorem missing_autostart_falls_back (kvs : List (String × Toml))
    (d : UserConfig) (h : List.lookup "autostart" kvs = none) :
    (deserializeUserConfig (Toml.table kvs)).isOk = false
    ∧ loadConfig (Toml.table kvs) d = d := by
  have herr : ∃ e, deserializeUserConfig (Toml.table kvs)
      = Except.error e := by
    cases hp : requireField kvs "port" decodePort with
    | error e => exact ⟨e, by simp [deserializeUserConfig, hp]⟩
    | ok port =>
        cases hd : requireField kvs "discovery_paths" decodePathList with
        | error e => exact ⟨e, by simp [deserializeUserConfig, hp, hd]⟩
        | ok dps =>
            have ha : requireField kvs "autostart" decodeAutostart
                = Except.error ("missing field " ++ "autostart") := by
              unfold requireField
              rw [h]
            exact ⟨"missing field " ++ "autostart",
              by simp [deserializeUserConfig, hp, hd, ha]⟩
  obtain ⟨e, he⟩ := herr
  constructor
  · simp [he, Except.isOk, Except.toBool]
  · simp [loadConfig, he]

/-- Witness for the amended C8: a table with port 5601 and empty
discovery_paths but no autostart is rejected, and the loader returns the
default configuration. -/
theorem missing_autostart_falls_back_witness :
    (deserializeUserConfig (Toml.table
      [("port", Toml.int 5601), ("discovery_paths", Toml.arr [])])).isOk
      = false
    ∧ loadConfig (Toml.table
        [("port", Toml.int 5601), ("discovery_paths", Toml.arr [])])
        (defaultUserConfig [] true false)
      = defaultUserConfig [] true false :=
  missing_autostart_falls_back
    [("port", Toml.int 5601), ("discovery_paths", Toml.arr [])]
    (defaultUserConfig [] true false) rfl

/-- Counterexample for C9: two configured discovery paths both holding an
executable aw-x; the claim says the earlier configured path wins, but the
code maps aw-x to the executable under the later configured path. -/
theorem discovery_order_counterexample :
    smapFind (discover_modules
        [("/d1", [exeEntry "aw-x"]), ("/d2", [exeEntry "aw-x"])]
        [] ["/d1", "/d2"]) "aw-x"
      = some "/d2/aw-x"
    ∧ ("/d2/aw-x" : String) ≠ "/d1/aw-x" :=
  ⟨by decide, by decide⟩

/-- C9 amended: the merged search list holds the configured discovery
paths in reverse configured order ahead of the PATH entries, and the
earliest root of that merged list wins a name collision (the depth-first
loop pops from the back of the list and later inserts overwrite earlier
ones); in particular a discovery path still beats any PATH entry, but of
two configured discovery paths both holding an executable of the same
name, the later configured one wins. -/
theorem discovery_later_path_wins (d1 d2 p : String)
    (h12 : d1 ≠ d2) (h1p : d1 ≠ p) (h2p : d2 ≠ p) :
    smapFind (discover_modules
        [(d1, [exeEntry "aw-x"]), (d2, [exeEntry "aw-x"]),
         (p, [exeEntry "aw-x"])] [p] [d1, d2]) "aw-x"
      = some (childPath d2 "aw-x") := by
  have e1 : (p == d1) = false := beq_eq_false_iff_ne.mpr (Ne.symm h1p)
  have e2 : (d1 == p) = false := beq_eq_false_iff_ne.mpr h1p
  have e3 : (d2 == d1) = false := beq_eq_false_iff_ne.mpr (Ne.symm h12)
  have e4 : (d1 == d2) = false := beq_eq_false_iff_ne.mpr h12
  have e5 : (d2 == p) = false := beq_eq_false_iff_ne.mpr h2p
  have e6 : (p == d2) = false := beq_eq_false_iff_ne.mpr (Ne.symm h2p)
  have f1 : strStartsWith "aw-x" "aw-" = true := by decide
  have f2 : strContainsChar "aw-x" '.' = false := by decide
  have f3 : excludedModules.contains "aw-x" = false := by decide
  simp [discover_modules, mergedPaths, totalEntryCount, discoverLoop,
    scanDir, smapFind, smapInsert, childPath, List.lookup, List.contains,
    List.elem, exeEntry, e1, e2, e3, e4, e5, e6, f1, f2, f3,
    h12, h1p, h2p, Ne.symm h12, Ne.symm h1p, Ne.symm h2p]

/-- Witness for the amended C9 at concrete roots. -/
theorem discovery_later_path_wins_witness :
    smapFind (discover_modules
        [("/a", [exeEntry "aw-x"]), ("/b", [exeEntry "aw-x"]),
         ("/c", [exeEntry "aw-x"])] ["/c"] ["/a", "/b"]) "aw-x"
      = some (childPath "/b" "aw-x") :=
  discovery_later_path_wins "/a" "/b" "/c" (by decide) (by decide)
    (by decide)
